import Mathlib

set_option maxHeartbeats 1000000

/-
Verification of the alert-to-remediation core of the auto-heal repository
(lambda/auto_heal_lambda.py), as a shallow embedding in Lean.

Modelling conventions:
* JSON documents (Python dicts/lists/values after `json.loads`) are the
  inductive type `Json`.  Numbers are modelled as integers; string
  payloads whose decoding needs float or escape handling are treated as
  undecodable by the `jsonLoads` model (documented at `jsonLoads`).
* Python exceptions are `Except String`: a raised exception is `.error`
  carrying the exception's message/class; `try/except` blocks are matches
  on that value.
* The external collaborators (EC2, SSM, SNS) are an oracle environment
  `Env`; every outbound call is recorded in an `Effects` trace together
  with audit-log entries (`log_healing_action`), ordinary log lines, and
  the total time slept by the polling loop.
* `datetime.utcnow().isoformat()` is modelled as the single value
  `Env.now` (the code only embeds it in records, never compares it).
-/

inductive Json where
  | null : Json
  | bool : Bool → Json
  | num : Int → Json
  | str : String → Json
  | arr : List Json → Json
  | obj : List (String × Json) → Json
deriving Repr

/-- Association-list lookup modelling Python `dict` access (keys are
unique in a dict, so first-match lookup is faithful). -/
def jLookup : List (String × Json) → String → Option Json
  | [], _ => none
  | (k, v) :: t, key => if k = key then some v else jLookup t key

/-- Python `d.get(key, default)`: `AttributeError` when the receiver is
not a dict. -/
def jGetD (m : Json) (key : String) (d : Json) : Except String Json :=
  match m with
  | Json.obj kvs =>
    match jLookup kvs key with
    | some v => Except.ok v
    | none => Except.ok d
  | _ => Except.error "AttributeError"

/-- Python `value[key]` for a string key: `KeyError` when the key is
missing from a dict, `TypeError` when the receiver is not a dict. -/
def jIndexStr (m : Json) (key : String) : Except String Json :=
  match m with
  | Json.obj kvs =>
    match jLookup kvs key with
    | some v => Except.ok v
    | none => Except.error "KeyError"
  | _ => Except.error "TypeError"

/-- Python `value[0]`: first list element (`IndexError` when empty),
first character of a string, `KeyError` on a dict (no integer keys in a
JSON-decoded dict), `TypeError` otherwise. -/
def indexZero (m : Json) : Except String Json :=
  match m with
  | Json.arr [] => Except.error "IndexError"
  | Json.arr (x :: _) => Except.ok x
  | Json.str s =>
    match s.data with
    | [] => Except.error "IndexError"
    | c :: _ => Except.ok (Json.str (String.mk [c]))
  | Json.obj _ => Except.error "KeyError"
  | _ => Except.error "TypeError"

/-- Python truthiness of a JSON value. -/
def truthy : Json → Bool
  | Json.null => false
  | Json.bool b => b
  | Json.num n => n != 0
  | Json.str s => s != ""
  | Json.arr xs => !xs.isEmpty
  | Json.obj kvs => !kvs.isEmpty

def Json.isObj : Json → Bool
  | Json.obj _ => true
  | _ => false

/-- Substring test on character lists (Python `needle in hay`). -/
def listSubstr (n : List Char) : List Char → Bool
  | [] => n.isEmpty
  | h@(_ :: t) => n.isPrefixOf h || listSubstr n t

/-- Python `needle in hay` for strings: substring containment. -/
def substrB (needle hay : String) : Bool :=
  listSubstr needle.data hay.data

/-- Character class `[a-z0-9]` of the instance-id regex. -/
def idChar (c : Char) : Bool :=
  ('a' ≤ c && c ≤ 'z') || ('0' ≤ c && c ≤ '9')

/-- Attempt of the regex `i-[a-z0-9]+` anchored at the current
position, with the `+` taken greedily. -/
def tryMatchAt : List Char → Option (List Char)
  | a :: b :: c :: r =>
    if a = 'i' ∧ b = '-' ∧ idChar c = true then some (a :: b :: c :: r.takeWhile idChar)
    else none
  | _ => none

/-- Model of `re.search(r'(i-[a-z0-9]+)', text)`: try each position
from the left, first (leftmost) match wins. -/
def reSearch : List Char → Option (List Char)
  | [] => none
  | c :: rest =>
    match tryMatchAt (c :: rest) with
    | some m => some m
    | none => reSearch rest

def reSearchStr (t : String) : Option String :=
  (reSearch t.data).map String.mk

mutual

/-- Python `repr` of a JSON-decoded value (used inside `str` of
containers); string escaping is not modelled (no claim exercises it). -/
def pyRepr : Json → String
  | Json.null => "None"
  | Json.bool true => "True"
  | Json.bool false => "False"
  | Json.num n => toString n
  | Json.str s => "\x27" ++ s ++ "\x27"
  | Json.arr xs => "[" ++ String.intercalate ", " (pyReprList xs) ++ "]"
  | Json.obj kvs => "\x7b" ++ String.intercalate ", " (pyReprPairs kvs) ++ "\x7d"

def pyReprList : List Json → List String
  | [] => []
  | x :: t => pyRepr x :: pyReprList t

def pyReprPairs : List (String × Json) → List String
  | [] => []
  | (k, v) :: t => ("\x27" ++ k ++ "\x27: " ++ pyRepr v) :: pyReprPairs t

end

/-- Python `str` of a JSON-decoded value. -/
def pyStr : Json → String
  | Json.str s => s
  | v => pyRepr v

mutual

/-- Model of `json.dumps` with the default separators. -/
def jsonDumps : Json → String
  | Json.null => "null"
  | Json.bool true => "true"
  | Json.bool false => "false"
  | Json.num n => toString n
  | Json.str s => "\"" ++ s ++ "\""
  | Json.arr xs => "[" ++ String.intercalate ", " (jsonDumpsList xs) ++ "]"
  | Json.obj kvs => "\x7b" ++ String.intercalate ", " (jsonDumpsPairs kvs) ++ "\x7d"

def jsonDumpsList : List Json → List String
  | [] => []
  | x :: t => jsonDumps x :: jsonDumpsList t

def jsonDumpsPairs : List (String × Json) → List String
  | [] => []
  | (k, v) :: t => ("\"" ++ k ++ "\": " ++ jsonDumps v) :: jsonDumpsPairs t

end

/-- JSON whitespace skipping. -/
def skipWs : List Char → List Char
  | [] => []
  | c :: t => if c = ' ' || c = '\t' || c = '\n' || c = '\r' then skipWs t else c :: t

/-- Body of a JSON string literal after the opening quote; escape
sequences are not modelled (a payload using them counts as
undecodable). -/
def parseStrBody : List Char → Option (List Char × List Char)
  | [] => none
  | c :: r =>
    if c = '"' then some ([], r)
    else if c = '\\' then none
    else
      match parseStrBody r with
      | some (s, r2) => some (c :: s, r2)
      | none => none

def parseDigits (cs : List Char) : Option (Nat × List Char) :=
  let ds := cs.takeWhile Char.isDigit
  if ds.isEmpty then none
  else some (ds.foldl (fun acc c => acc * 10 + (c.toNat - '0'.toNat)) 0, cs.drop ds.length)

mutual

/-- Fuel-indexed recursive-descent JSON value parser (model of
`json.loads`; numbers are integers only — a float literal makes the
whole payload undecodable in this model). -/
def parseVal : Nat → List Char → Option (Json × List Char)
  | 0, _ => none
  | fuel + 1, cs =>
    match skipWs cs with
    | 'n' :: 'u' :: 'l' :: 'l' :: r => some (Json.null, r)
    | 't' :: 'r' :: 'u' :: 'e' :: r => some (Json.bool true, r)
    | 'f' :: 'a' :: 'l' :: 's' :: 'e' :: r => some (Json.bool false, r)
    | '"' :: r =>
      match parseStrBody r with
      | some (s, r2) => some (Json.str (String.mk s), r2)
      | none => none
    | '[' :: r =>
      (match skipWs r with
       | ']' :: r2 => some (Json.arr [], r2)
       | _ =>
         match parseElems fuel r with
         | some (xs, r2) => some (Json.arr xs, r2)
         | none => none)
    | '\x7b' :: r =>
      (match skipWs r with
       | '\x7d' :: r2 => some (Json.obj [], r2)
       | _ =>
         match parseMembers fuel r with
         | some (ps, r2) => some (Json.obj ps, r2)
         | none => none)
    | '-' :: r =>
      (match parseDigits r with
       | some (n, r2) => some (Json.num (-(n : Int)), r2)
       | none => none)
    | c :: r =>
      if c.isDigit then
        match parseDigits (c :: r) with
        | some (n, r2) => some (Json.num (n : Int), r2)
        | none => none
      else none
    | [] => none

def parseElems : Nat → List Char → Option (List Json × List Char)
  | 0, _ => none
  | fuel + 1, cs =>
    match parseVal fuel cs with
    | none => none
    | some (v, r) =>
      match skipWs r with
      | ',' :: r2 =>
        (match parseElems fuel r2 with
         | some (xs, r3) => some (v :: xs, r3)
         | none => none)
      | ']' :: r2 => some ([v], r2)
      | _ => none

def parseMembers : Nat → List Char → Option (List (String × Json) × List Char)
  | 0, _ => none
  | fuel + 1, cs =>
    match skipWs cs with
    | '"' :: r =>
      (match parseStrBody r with
       | none => none
       | some (k, r2) =>
         match skipWs r2 with
         | ':' :: r3 =>
           (match parseVal fuel r3 with
            | none => none
            | some (v, r4) =>
              match skipWs r4 with
              | ',' :: r5 =>
                (match parseMembers fuel r5 with
                 | some (ps, r6) => some ((String.mk k, v) :: ps, r6)
                 | none => none)
              | '\x7d' :: r5 => some ([(String.mk k, v)], r5)
              | _ => none)
         | _ => none)
    | _ => none

end

/-- Model of `json.loads`: decode the whole string or fail
(`json.JSONDecodeError`). -/
def jsonLoads (s : String) : Option Json :=
  match parseVal (s.length + 1) s.data with
  | some (v, r) => if skipWs r = [] then some v else none
  | none => none

/-- EC2 instance as seen by the core: only `instance['State']['Name']`
is ever read. -/
structure Instance where
  stateName : String
deriving Repr, DecidableEq

/-- Response of `ssm_client.get_command_invocation`: its `Status` field
and the optional `StandardErrorContent` field. -/
structure InvStatus where
  status : String
  standardErrorContent : Option String
deriving Repr, DecidableEq

/-- One entry written by `log_healing_action` (the audit trail). -/
structure AuditEntry where
  timestamp : String
  instance_id : String
  action : String
  status : String
  details : String
deriving Repr, DecidableEq

/-- One outbound call to an external collaborator. -/
inductive ExtCall where
  | describeInstances (instanceId : String)
  | rebootInstances (instanceId : String)
  | sendCommand (instanceId action : String) (timeoutSeconds : Nat)
  | getCommandInvocation (commandId instanceId : String)
  | snsPublish (topicArn subject : String) (message : Json)
deriving Repr

/-- Observable side effects accumulated during one invocation. -/
structure Effects where
  calls : List ExtCall := []
  audits : List AuditEntry := []
  logs : List String := []
  slept : Nat := 0
  describeCount : Nat := 0

def initEffects : Effects := {}

/-- Oracle for configuration and collaborator responses.  `describeResp`
and `ssmStatusResp` are indexed by how many calls of that kind were made
before, so successive calls may answer differently. -/
structure Env where
  autoHealingEnabled : Bool
  snsTopicArn : String
  healingActionTimeout : Nat
  describeResp : Nat → Except String (List (List Instance))
  rebootResp : Except String Unit
  sendResp : Except String String
  ssmStatusResp : Nat → Except String InvStatus
  publishResp : Except String Unit
  now : String

/-- Lambda response envelope; the code serialises `body` with
`json.dumps`, here it is kept as the JSON document. -/
structure Response where
  statusCode : Nat
  body : Json
deriving Repr

/-- `log_healing_action` (source lines 32-43). -/
def log_healing_action (env : Env) (s : Effects) (instance_id action status details : String) :
    AuditEntry × Effects :=
  let e : AuditEntry :=
    { timestamp := env.now, instance_id := instance_id, action := action,
      status := status, details := details }
  let line := "HEALING_ACTION: " ++ jsonDumps (Json.obj
    [("timestamp", Json.str env.now), ("instance_id", Json.str instance_id),
     ("action", Json.str action), ("status", Json.str status),
     ("details", Json.str details)])
  (e, { s with audits := s.audits ++ [e], logs := s.logs ++ [line] })

/-- Traversal part of `parse_sns_message` (source lines 65-66):
`event.get('Records', [{}])[0].get('Sns', {}).get('Message', '{}')`. -/
def messagePayload (event : Json) : Except String Json :=
  match jGetD event "Records" (Json.arr [Json.obj []]) with
  | Except.error e => Except.error e
  | Except.ok records =>
    match indexZero records with
    | Except.error e => Except.error e
    | Except.ok rec0 =>
      match jGetD rec0 "Sns" (Json.obj []) with
      | Except.error e => Except.error e
      | Except.ok sns => jGetD sns "Message" (Json.str "\x7b\x7d")

/-- Body of the `try` block of `parse_sns_message` (source lines 64-79):
a string payload is decoded, an undecodable one is wrapped as
`{'raw_message': payload}` (the inner `except json.JSONDecodeError`),
and a non-string payload is taken as the message itself. -/
def parseCore (event : Json) : Except String Json :=
  match messagePayload event with
  | Except.error e => Except.error e
  | Except.ok (Json.str s) =>
    match jsonLoads s with
    | some m => Except.ok m
    | none => Except.ok (Json.obj [("raw_message", Json.str s)])
  | Except.ok other => Except.ok other

/-- `parse_sns_message` (source lines 46-83): any exception from the
body is caught and `{}` is returned. -/
def parse_sns_message (event : Json) : Except String Json :=
  match parseCore event with
  | Except.ok m => Except.ok m
  | Except.error _ => Except.ok (Json.obj [])

/-- `value = value[key]` chain over one candidate path of
`extract_instance_id`. -/
def pathLookup (m : Json) : List String → Except String Json
  | [] => Except.ok m
  | k :: ks =>
    match jIndexStr m k with
    | Except.error e => Except.error e
    | Except.ok v => pathLookup v ks

/-- Python `s.startswith(pre)`, modelled on the character lists. -/
def pyStartsWith (s pre : String) : Bool :=
  pre.data.isPrefixOf s.data

/-- Validation `if value and isinstance(value, str) and
value.startswith('i-')` (source line 100). -/
def candidateOk (v : Json) : Option String :=
  match v with
  | Json.str s => if truthy (Json.str s) && pyStartsWith s "i-" then some s else none
  | _ => none

/-- One strategy of `extract_instance_id`: traverse a path (`KeyError`,
`TypeError`, `IndexError` are caught and mean "try the next path") and
validate the candidate. -/
def tryPath (m : Json) (path : List String) : Option String :=
  match pathLookup m path with
  | Except.error _ => none
  | Except.ok v => candidateOk v

/-- Raw-text fallback of `extract_instance_id` (source lines 107-110):
`if 'raw_message' in message: re.search(r'(i-[a-z0-9]+)',
str(message['raw_message']))`.  On a non-dict message the membership
test or the subscript raises `TypeError` (uncaught). -/
def rawFallback (m : Json) : Except String (Option String) :=
  match m with
  | Json.obj kvs =>
    match jLookup kvs "raw_message" with
    | some v => Except.ok (reSearchStr (pyStr v))
    | none => Except.ok none
  | Json.str s =>
    if substrB "raw_message" s then Except.error "TypeError" else Except.ok none
  | Json.arr xs =>
    if xs.any (fun x => match x with | Json.str t => t = "raw_message" | _ => false)
    then Except.error "TypeError" else Except.ok none
  | _ => Except.error "TypeError"

/-- `extract_instance_id` (source lines 86-113): the three structured
paths in order, first validated candidate wins, then the raw-text regex
fallback; returns `none` when nothing matches. -/
def extract_instance_id (m : Json) : Except String (Option String) :=
  match tryPath m ["Trigger", "Dimensions", "InstanceId"] with
  | some v => Except.ok (some v)
  | none =>
    match tryPath m ["instance_id"] with
    | some v => Except.ok (some v)
    | none =>
      match tryPath m ["InstanceId"] with
      | some v => Except.ok (some v)
      | none => rawFallback m

/-- `get_instance_details` (source lines 116-125): one
`describe_instances` call; any exception (including the `IndexError` of
`response['Reservations'][0]` on an empty reservation list) is caught,
logged and turned into `None`; an empty `Instances` list falls through
to `None` without an error log. -/
def get_instance_details (env : Env) (s : Effects) (instance_id : String) :
    Option Instance × Effects :=
  let k := s.describeCount
  let s1 : Effects :=
    { s with calls := s.calls ++ [ExtCall.describeInstances instance_id],
             describeCount := k + 1 }
  match env.describeResp k with
  | Except.error e =>
    (none, { s1 with logs := s1.logs ++
      ["Error getting instance details for " ++ instance_id ++ ": " ++ e] })
  | Except.ok [] =>
    (none, { s1 with logs := s1.logs ++
      ["Error getting instance details for " ++ instance_id ++ ": list index out of range"] })
  | Except.ok ([] :: _) => (none, s1)
  | Except.ok ((i :: _) :: _) => (some i, s1)

/-- Python `str.lower`, modelled character by character (faithful for
ASCII; alarm and metric tokens are ASCII). -/
def pyLower (s : String) : String :=
  String.mk (s.data.map Char.toLower)

/-- `message.get('AlarmName', '').lower()` and
`message.get('Trigger', {}).get('MetricName', '').lower()` (source
lines 160-161); `.lower()` on a non-string raises `AttributeError`. -/
def getLowerStrD (m : Json) (key : String) (d : Json) : Except String String :=
  match jGetD m key d with
  | Except.error e => Except.error e
  | Except.ok (Json.str s) => Except.ok (pyLower s)
  | Except.ok _ => Except.error "AttributeError"

def alarmNameLower (m : Json) : Except String String :=
  getLowerStrD m "AlarmName" (Json.str "")

def metricNameLower (m : Json) : Except String String :=
  match jGetD m "Trigger" (Json.obj []) with
  | Except.error e => Except.error e
  | Except.ok trig => getLowerStrD trig "MetricName" (Json.str "")

/-- The pure substring cascade of `determine_healing_action` (source
lines 163-180), applied to the already-lowercased alarm and metric
names. -/
def classifyNames (alarm_name metric_name : String) : String :=
  if substrB "status-check" alarm_name || substrB "statuscheckfailed" metric_name then
    "reboot"
  else if substrB "cpu" alarm_name || substrB "cpuutilization" metric_name then
    "optimize_cpu"
  else if substrB "memory" alarm_name || substrB "memoryutilization" metric_name then
    "clear_cache"
  else if substrB "disk" alarm_name || substrB "diskutilization" metric_name then
    "cleanup_disk"
  else
    "diagnostic"

/-- `determine_healing_action` (source lines 154-180).  The
`instance_id` argument is accepted but never inspected, exactly as in
the source. -/
def determine_healing_action (m : Json) (instance_id : String) : Except String String :=
  match alarmNameLower m with
  | Except.error e => Except.error e
  | Except.ok a =>
    match metricNameLower m with
    | Except.error e => Except.error e
    | Except.ok mn => Except.ok (classifyNames a mn)

/-- `execute_reboot_instance` (source lines 183-198): gated by the
auto-healing switch; a collaborator exception is caught, logged and
audited as a failure. -/
def execute_reboot_instance (env : Env) (s : Effects) (instance_id : String) :
    Bool × Effects :=
  if !env.autoHealingEnabled then
    (false, { s with logs := s.logs ++
      ["Auto-healing disabled, skipping reboot for " ++ instance_id] })
  else
    let s1 : Effects :=
      { s with logs := s.logs ++ ["Rebooting instance " ++ instance_id],
               calls := s.calls ++ [ExtCall.rebootInstances instance_id] }
    match env.rebootResp with
    | Except.ok _ =>
      (true, (log_healing_action env s1 instance_id "reboot" "initiated"
        "EC2 instance reboot initiated").2)
    | Except.error e =>
      let s2 := { s1 with logs := s1.logs ++
        ["Error rebooting instance " ++ instance_id ++ ": " ++ e] }
      (false, (log_healing_action env s2 instance_id "reboot" "failed" e).2)

/-- The remote-script bodies keyed by action, with
`commands.get(action, commands['diagnostic'])` (source lines 219-252). -/
def ssmCommands (action : String) : List String :=
  if action = "optimize_cpu" then
    ["#!/bin/bash", "set -e", "echo \"Optimizing CPU...\"",
     "killall -9 stress 2>/dev/null || true", "sync"]
  else if action = "clear_cache" then
    ["#!/bin/bash", "set -e", "echo \"Clearing caches...\"",
     "sync; echo 3 > /proc/sys/vm/drop_caches",
     "systemctl restart httpd || true", "systemctl restart nginx || true"]
  else if action = "cleanup_disk" then
    ["#!/bin/bash", "set -e", "echo \"Cleaning up disk space...\"",
     "find /var/log -name \"*.log\" -mtime +7 -delete 2>/dev/null || true",
     "rm -rf /tmp/* 2>/dev/null || true", "apt-get clean || yum clean all || true"]
  else
    ["#!/bin/bash", "echo \"Running diagnostics...\"", "df -h", "free -m",
     "ps aux --sort=-%cpu | head -20"]

/-- Effect of one poll iteration that received a status: 3 time units of
sleep, one `get_command_invocation` call, one status log line. -/
def pollObserve (cmdId instance_id : String) (st : InvStatus) (s : Effects) : Effects :=
  { s with slept := s.slept + 3,
           calls := s.calls ++ [ExtCall.getCommandInvocation cmdId instance_id],
           logs := s.logs ++ ["Command " ++ cmdId ++ " status: " ++ st.status] }

/-- The completion-polling loop of `execute_ssm_command` (source lines
268-289): up to `fuel` iterations (the code starts it with 10), each
sleeping 3 time units before calling `get_command_invocation`; `Success`
and `Failed` are terminal, anything else polls again; running out of
attempts logs a timeout warning and yields `False`.  An exception from
the status call propagates (to the function's outer `except`). -/
def pollLoop (env : Env) (instance_id action cmdId : String) :
    Nat → Nat → Effects → Except String Bool × Effects
  | 0, _, s =>
    (Except.ok false, { s with logs := s.logs ++
      ["Command " ++ cmdId ++ " did not complete within timeout period"] })
  | fuel + 1, i, s =>
    match env.ssmStatusResp i with
    | Except.error e =>
      (Except.error e,
       { s with slept := s.slept + 3,
                calls := s.calls ++ [ExtCall.getCommandInvocation cmdId instance_id] })
    | Except.ok st =>
      if st.status = "Success" then
        (Except.ok true, (log_healing_action env (pollObserve cmdId instance_id st s)
          instance_id ("ssm_" ++ action) "completed" "SSM command completed successfully").2)
      else if st.status = "Failed" then
        (Except.ok false, (log_healing_action env (pollObserve cmdId instance_id st s)
          instance_id ("ssm_" ++ action) "failed"
          (st.standardErrorContent.getD "Unknown error")).2)
      else
        pollLoop env instance_id action cmdId fuel (i + 1) (pollObserve cmdId instance_id st s)

/-- State reached after `send_command` returned a command id (source
lines 263-265): the sent log line plus the `initiated` audit entry. -/
def ssmDispatchState (env : Env) (s2 : Effects) (instance_id action cmdId : String) :
    Effects :=
  let s3 := { s2 with logs := s2.logs ++
    ["SSM command " ++ cmdId ++ " sent to instance " ++ instance_id] }
  (log_healing_action env s3 instance_id ("ssm_" ++ action) "initiated"
    ("Command ID: " ++ cmdId)).2

/-- `execute_ssm_command` (source lines 201-294): the auto-healing gate,
the re-validation of the instance's run state, the dispatch, and the
bounded polling; every exception raised inside is caught, logged and
audited as a failure. -/
def execute_ssm_command (env : Env) (s : Effects) (instance_id action : String) :
    Bool × Effects :=
  if !env.autoHealingEnabled then
    (false, { s with logs := s.logs ++
      ["Auto-healing disabled, skipping SSM command for " ++ instance_id] })
  else
    match get_instance_details env s instance_id with
    | (none, s1) =>
      (false, { s1 with logs := s1.logs ++ ["Instance " ++ instance_id ++ " not found"] })
    | (some inst, s1) =>
      if inst.stateName != "running" then
        (false, { s1 with logs := s1.logs ++
          ["Instance " ++ instance_id ++ " is not running, cannot execute SSM command"] })
      else
        let _command := ssmCommands action
        let s2 := { s1 with
          logs := s1.logs ++
            ["Executing SSM command: " ++ action ++ " on instance " ++ instance_id],
          calls := s1.calls ++
            [ExtCall.sendCommand instance_id action env.healingActionTimeout] }
        match env.sendResp with
        | Except.error e =>
          let s3 := { s2 with logs := s2.logs ++
            ["Error executing SSM command on " ++ instance_id ++ ": " ++ e] }
          (false, (log_healing_action env s3 instance_id ("ssm_" ++ action) "failed" e).2)
        | Except.ok cmdId =>
          match pollLoop env instance_id action cmdId 10 0
              (ssmDispatchState env s2 instance_id action cmdId) with
          | (Except.ok b, s5) => (b, s5)
          | (Except.error e, s5) =>
            let s6 := { s5 with logs := s5.logs ++
              ["Error executing SSM command on " ++ instance_id ++ ": " ++ e] }
            (false, (log_healing_action env s6 instance_id ("ssm_" ++ action) "failed" e).2)

/-- `publish_healing_result` (source lines 297-321): skipped with a
warning when no SNS topic is configured; a publish exception is caught
and logged.  Note: this function never calls `log_healing_action`. -/
def publish_healing_result (env : Env) (s : Effects) (instance_id action : String)
    (success : Bool) (details : Json) : Effects :=
  if env.snsTopicArn = "" then
    { s with logs := s.logs ++ ["SNS topic ARN not configured, skipping notification"] }
  else
    let payload := Json.obj
      [("healing_action", Json.str action), ("instance_id", Json.str instance_id),
       ("status", Json.str (if success then "success" else "failed")),
       ("timestamp", Json.str env.now), ("details", details)]
    let s1 := { s with calls := s.calls ++
      [ExtCall.snsPublish env.snsTopicArn ("Auto-Heal: " ++ action ++ " - " ++ instance_id)
        payload] }
    match env.publishResp with
    | Except.ok _ =>
      { s1 with logs := s1.logs ++ ["Published healing result to SNS: " ++ jsonDumps payload] }
    | Except.error e =>
      { s1 with logs := s1.logs ++ ["Error publishing to SNS: " ++ e] }

/-- The 500 envelope of the handler's outermost `except` (source lines
385-390). -/
def handlerFail (e : String) : Response :=
  { statusCode := 500,
    body := Json.obj [("error", Json.str ("Lambda execution failed: " ++ e))] }

/-- `lambda_handler` (source lines 324-390): parse, extract (400 when
none), look up the instance (404 when gone), classify, execute, publish,
and answer 200/500 by the action's success flag; any exception escaping
a stage is caught at the top and becomes a 500 with the message in the
body. -/
def lambda_handler (env : Env) (event : Json) : Response × Effects :=
  match parse_sns_message event with
  | Except.error e => (handlerFail e, initEffects)
  | Except.ok message =>
    match extract_instance_id message with
    | Except.error e => (handlerFail e, initEffects)
    | Except.ok none =>
      ({ statusCode := 400,
         body := Json.obj [("error", Json.str "Could not extract instance ID from alert")] },
       initEffects)
    | Except.ok (some instance_id) =>
      match get_instance_details env initEffects instance_id with
      | (none, s) =>
        ({ statusCode := 404,
           body := Json.obj [("error", Json.str ("Instance " ++ instance_id ++ " not found"))] },
         s)
      | (some _inst, s) =>
        match determine_healing_action message instance_id with
        | Except.error e => (handlerFail e, s)
        | Except.ok action =>
          let (success, s1) :=
            if action = "reboot" then execute_reboot_instance env s instance_id
            else execute_ssm_command env s instance_id action
          match jGetD message "AlarmDescription" (Json.str "") with
          | Except.error e => (handlerFail e, s1)
          | Except.ok desc =>
            let s2 := publish_healing_result env s1 instance_id action success desc
            ({ statusCode := if success then 200 else 500,
               body := Json.obj
                 [("instance_id", Json.str instance_id), ("action", Json.str action),
                  ("status", Json.str (if success then "completed" else "failed")),
                  ("timestamp", Json.str env.now)] },
             s2)

/-
Environment used by the concrete witnesses: auto-healing on, a topic
configured, a running instance, command dispatch and polling succeed.
-/
def envOK : Env :=
  { autoHealingEnabled := true, snsTopicArn := "arn:topic", healingActionTimeout := 300,
    describeResp := fun _ => Except.ok [[{ stateName := "running" }]],
    rebootResp := Except.ok (), sendResp := Except.ok "cmd-1",
    ssmStatusResp := fun _ => Except.ok { status := "Success", standardErrorContent := none },
    publishResp := Except.ok (), now := "T0" }

/-- Witness environment in which every poll answers `Pending`. -/
def envPending : Env :=
  { envOK with
      ssmStatusResp := fun _ =>
        Except.ok { status := "Pending", standardErrorContent := none } }

/-- Witness environment in which the instance lookup returns no
reservations. -/
def envNoRes : Env :=
  { envOK with describeResp := fun _ => Except.ok [] }

/-- C2: `determine_healing_action` lowercases the alarm and metric names
and evaluates the substring cascade in the fixed priority order
status-check → `reboot` (the spec's Reboot), cpu → `optimize_cpu`
(OptimizeCompute), memory → `clear_cache` (ClearCache), disk →
`cleanup_disk` (CleanupDisk), otherwise `diagnostic` (Diagnostic); in
particular a lowered alarm name containing both "status-check" and
"cpu" always classifies as `reboot`. -/
theorem classify_priority_c2 :
    (∀ (m : Json) (iid a mn : String), alarmNameLower m = Except.ok a →
       metricNameLower m = Except.ok mn →
       determine_healing_action m iid = Except.ok (classifyNames a mn)) ∧
    (∀ a mn, (substrB "status-check" a || substrB "statuscheckfailed" mn) = true →
       classifyNames a mn = "reboot") ∧
    (∀ a mn, (substrB "status-check" a || substrB "statuscheckfailed" mn) = false →
       (substrB "cpu" a || substrB "cpuutilization" mn) = true →
       classifyNames a mn = "optimize_cpu") ∧
    (∀ a mn, (substrB "status-check" a || substrB "statuscheckfailed" mn) = false →
       (substrB "cpu" a || substrB "cpuutilization" mn) = false →
       (substrB "memory" a || substrB "memoryutilization" mn) = true →
       classifyNames a mn = "clear_cache") ∧
    (∀ a mn, (substrB "status-check" a || substrB "statuscheckfailed" mn) = false →
       (substrB "cpu" a || substrB "cpuutilization" mn) = false →
       (substrB "memory" a || substrB "memoryutilization" mn) = false →
       (substrB "disk" a || substrB "diskutilization" mn) = true →
       classifyNames a mn = "cleanup_disk") ∧
    (∀ a mn, (substrB "status-check" a || substrB "statuscheckfailed" mn) = false →
       (substrB "cpu" a || substrB "cpuutilization" mn) = false →
       (substrB "memory" a || substrB "memoryutilization" mn) = false →
       (substrB "disk" a || substrB "diskutilization" mn) = false →
       classifyNames a mn = "diagnostic") ∧
    (∀ (m : Json) (iid a mn : String), alarmNameLower m = Except.ok a →
       metricNameLower m = Except.ok mn → substrB "status-check" a = true →
       substrB "cpu" a = true → determine_healing_action m iid = Except.ok "reboot") := by
  refine ⟨?_, ?_, ?_, ?_, ?_, ?_, ?_⟩
  · intro m iid a mn h1 h2
    simp [determine_healing_action, h1, h2]
  · intro a mn h
    simp [classifyNames, h]
  · intro a mn h1 h2
    simp [classifyNames, h1, h2]
  · intro a mn h1 h2 h3
    simp [classifyNames, h1, h2, h3]
  · intro a mn h1 h2 h3 h4
    simp [classifyNames, h1, h2, h3, h4]
  · intro a mn h1 h2 h3 h4
    simp [classifyNames, h1, h2, h3, h4]
  · intro m iid a mn h1 h2 hs hc
    have : classifyNames a mn = "reboot" := by simp [classifyNames, hs]
    simp [determine_healing_action, h1, h2, this]

/-- C2 witness: the spec's own example, alarm name
"High-CPU-Status-Check", resolves to reboot. -/
theorem classify_priority_c2_witness :
    determine_healing_action (Json.obj [("AlarmName", Json.str "High-CPU-Status-Check")])
      "i-0abc123" = Except.ok "reboot" := by
  exact classify_priority_c2.2.2.2.2.2.2
    (Json.obj [("AlarmName", Json.str "High-CPU-Status-Check")]) "i-0abc123"
    "high-cpu-status-check" "" rfl rfl (by decide) (by decide)

/-- C8 counterexample: classification is not total over arbitrarily
shaped messages — an `AlarmName` that is a number makes
`determine_healing_action` raise `AttributeError` (`.lower()` on a
non-string), so it does not return a value from the action set. -/
theorem classify_illtyped_c8_counterexample :
    determine_healing_action (Json.obj [("AlarmName", Json.num 5)]) "i-0abc123" =
      Except.error "AttributeError" := rfl

/-- C8 (amended): on every message whose `AlarmName` and
`Trigger.MetricName` lookups succeed (present fields of string type, or
absent fields), classification returns, without raising, a value from
the closed action set, and it is a pure deterministic function;
ill-typed fields instead raise `AttributeError` (caught by the
orchestrator's top-level handler). -/
theorem classify_welltyped_total_c8 :
    (∀ (m : Json) (iid a mn : String), alarmNameLower m = Except.ok a →
       metricNameLower m = Except.ok mn →
       determine_healing_action m iid = Except.ok (classifyNames a mn) ∧
         (classifyNames a mn = "reboot" ∨ classifyNames a mn = "optimize_cpu" ∨
          classifyNames a mn = "clear_cache" ∨ classifyNames a mn = "cleanup_disk" ∨
          classifyNames a mn = "diagnostic")) ∧
    (∀ (m₁ m₂ : Json) (i₁ i₂ : String), m₁ = m₂ → i₁ = i₂ →
       determine_healing_action m₁ i₁ = determine_healing_action m₂ i₂) := by
  constructor
  · intro m iid a mn h1 h2
    constructor
    · simp [determine_healing_action, h1, h2]
    · unfold classifyNames
      split_ifs <;> simp
  · intro m₁ m₂ i₁ i₂ h1 h2
    rw [h1, h2]

/-- C8 witness: the empty message is well typed (both lookups default)
and classifies to a member of the closed set. -/
theorem classify_welltyped_total_c8_witness :
    determine_healing_action (Json.obj []) "i-0abc123" =
        Except.ok (classifyNames "" "") ∧
      (classifyNames "" "" = "reboot" ∨ classifyNames "" "" = "optimize_cpu" ∨
       classifyNames "" "" = "clear_cache" ∨ classifyNames "" "" = "cleanup_disk" ∨
       classifyNames "" "" = "diagnostic") := by
  exact classify_welltyped_total_c8.1 (Json.obj []) "i-0abc123" "" "" rfl rfl

theorem tryMatchAt_shape :
    ∀ (l r : List Char), tryMatchAt l = some r →
      ∃ c u, r = 'i' :: '-' :: c :: u ∧ idChar c = true ∧ ∀ x ∈ u, idChar x = true := by
  intro l r h
  match l with
  | [] => simp [tryMatchAt] at h
  | [a] => simp [tryMatchAt] at h
  | [a, b] => simp [tryMatchAt] at h
  | a :: b :: c :: rest =>
    rw [tryMatchAt] at h
    split_ifs at h with hc
    · obtain ⟨ha, hb, hcc⟩ := hc
      injection h with h'
      subst ha hb
      refine ⟨c, rest.takeWhile idChar, h'.symm, hcc, ?_⟩
      intro x hx
      exact List.mem_takeWhile_imp hx

/-- Every match produced by the instance-id regex model starts with
`i-` followed by at least one `[a-z0-9]` character, and all the
remaining matched characters are in `[a-z0-9]`. -/
theorem reSearch_shape :
    ∀ (l r : List Char), reSearch l = some r →
      ∃ c u, r = 'i' :: '-' :: c :: u ∧ idChar c = true ∧ ∀ x ∈ u, idChar x = true := by
  intro l
  induction l with
  | nil => intro r h; simp [reSearch] at h
  | cons a t ih =>
    intro r h
    rw [reSearch] at h
    cases htm : tryMatchAt (a :: t) with
    | some m =>
      rw [htm] at h
      injection h with h'
      subst h'
      exact tryMatchAt_shape _ _ htm
    | none =>
      rw [htm] at h
      exact ih r h

/-- C10: the lexical validation differs between extraction strategies —
a structured field is accepted whenever it is a non-empty string
starting with `i-` (including the bare `"i-"` and strings with
uppercase characters), whereas every result of the raw-text regex
fallback is `i-` followed by at least one `[a-z0-9]` character, so
identifiers such as `"i-"` (or `"i-ABC"` in full) are accepted from
structured fields but are never produced by the raw-text search. -/
theorem lexical_asymmetry_c10 :
    (∀ s : String, s ≠ "" → pyStartsWith s "i-" = true →
       extract_instance_id (Json.obj [("instance_id", Json.str s)]) = Except.ok (some s)) ∧
    (∀ (t r : List Char), reSearch t = some r →
       ∃ c u, r = 'i' :: '-' :: c :: u ∧ idChar c = true ∧ ∀ x ∈ u, idChar x = true) ∧
    (∀ t : String, reSearchStr t ≠ some "i-") ∧
    (∀ t : String, reSearchStr t ≠ some "i-ABC") := by
  refine ⟨?_, reSearch_shape, ?_, ?_⟩
  · intro s h1 h2
    have hc : candidateOk (Json.str s) = some s := by
      simp [candidateOk, truthy, h2, bne_iff_ne, h1]
    simp [extract_instance_id, tryPath, pathLookup, jIndexStr, jLookup, hc]
  · intro t h
    unfold reSearchStr at h
    cases hr : reSearch t.data with
    | none => rw [hr] at h; simp at h
    | some l =>
      rw [hr] at h
      simp only [Option.map_some'] at h
      injection h with h'
      have hl : l = ['i', '-'] := by
        have h2 := congrArg String.data h'
        simpa using h2
      obtain ⟨c, u, hshape, _, _⟩ := reSearch_shape _ _ hr
      rw [hl] at hshape
      simp at hshape
  · intro t h
    unfold reSearchStr at h
    cases hr : reSearch t.data with
    | none => rw [hr] at h; simp at h
    | some l =>
      rw [hr] at h
      simp only [Option.map_some'] at h
      injection h with h'
      have hl : l = ['i', '-', 'A', 'B', 'C'] := by
        have h2 := congrArg String.data h'
        simpa using h2
      obtain ⟨c, u, hshape, hcc, _⟩ := reSearch_shape _ _ hr
      rw [hl] at hshape
      have hca : c = 'A' := by
        have := List.cons.inj hshape
        have := List.cons.inj this.2
        exact (List.cons.inj this.2).1.symm
      rw [hca] at hcc
      exact absurd hcc (by decide)

/-- C10 witness: `"i-"` is accepted from the structured `instance_id`
field yet is never a result of the raw-text search. -/
theorem lexical_asymmetry_c10_witness :
    extract_instance_id (Json.obj [("instance_id", Json.str "i-")]) = Except.ok (some "i-") ∧
      reSearchStr "i-" ≠ some "i-" := by
  exact ⟨lexical_asymmetry_c10.1 "i-" (by decide) (by decide),
         lexical_asymmetry_c10.2.2.1 "i-"⟩

/-- C3: `extract_instance_id` tries the nested
`Trigger.Dimensions.InstanceId` path, then flat `instance_id`, then
flat `InstanceId`, then the raw-text regex, in that fixed order; the
first candidate passing the lexical validation wins — in particular a
valid nested value is returned regardless of the raw text — and on a
mapping-shaped message where no strategy succeeds it returns `none`
without raising. -/
theorem extract_priority_c3 :
    (∀ m : Json, m.isObj = true → ∃ o, extract_instance_id m = Except.ok o) ∧
    (∀ (m : Json) (s : String), tryPath m ["Trigger", "Dimensions", "InstanceId"] = some s →
       extract_instance_id m = Except.ok (some s)) ∧
    (∀ (m : Json) (s : String), tryPath m ["Trigger", "Dimensions", "InstanceId"] = none →
       tryPath m ["instance_id"] = some s → extract_instance_id m = Except.ok (some s)) ∧
    (∀ (m : Json) (s : String), tryPath m ["Trigger", "Dimensions", "InstanceId"] = none →
       tryPath m ["instance_id"] = none → tryPath m ["InstanceId"] = some s →
       extract_instance_id m = Except.ok (some s)) ∧
    (∀ (kvs : List (String × Json)) (t : Json) (s : String),
       tryPath (Json.obj kvs) ["Trigger", "Dimensions", "InstanceId"] = none →
       tryPath (Json.obj kvs) ["instance_id"] = none →
       tryPath (Json.obj kvs) ["InstanceId"] = none →
       jLookup kvs "raw_message" = some t → reSearchStr (pyStr t) = some s →
       extract_instance_id (Json.obj kvs) = Except.ok (some s)) ∧
    (∀ kvs : List (String × Json),
       tryPath (Json.obj kvs) ["Trigger", "Dimensions", "InstanceId"] = none →
       tryPath (Json.obj kvs) ["instance_id"] = none →
       tryPath (Json.obj kvs) ["InstanceId"] = none →
       (∀ t, jLookup kvs "raw_message" = some t → reSearchStr (pyStr t) = none) →
       extract_instance_id (Json.obj kvs) = Except.ok none) := by
  refine ⟨?_, ?_, ?_, ?_, ?_, ?_⟩
  · intro m hobj
    cases m with
    | obj kvs =>
      cases h1 : tryPath (Json.obj kvs) ["Trigger", "Dimensions", "InstanceId"] with
      | some v => exact ⟨some v, by simp [extract_instance_id, h1]⟩
      | none =>
        cases h2 : tryPath (Json.obj kvs) ["instance_id"] with
        | some v => exact ⟨some v, by simp [extract_instance_id, h1, h2]⟩
        | none =>
          cases h3 : tryPath (Json.obj kvs) ["InstanceId"] with
          | some v => exact ⟨some v, by simp [extract_instance_id, h1, h2, h3]⟩
          | none =>
            cases h4 : jLookup kvs "raw_message" with
            | some t =>
              exact ⟨reSearchStr (pyStr t),
                by simp [extract_instance_id, h1, h2, h3, rawFallback, h4]⟩
            | none =>
              exact ⟨none, by simp [extract_instance_id, h1, h2, h3, rawFallback, h4]⟩
    | null => simp [Json.isObj] at hobj
    | bool b => simp [Json.isObj] at hobj
    | num n => simp [Json.isObj] at hobj
    | str s => simp [Json.isObj] at hobj
    | arr xs => simp [Json.isObj] at hobj
  · intro m s h1
    simp [extract_instance_id, h1]
  · intro m s h1 h2
    simp [extract_instance_id, h1, h2]
  · intro m s h1 h2 h3
    simp [extract_instance_id, h1, h2, h3]
  · intro kvs t s h1 h2 h3 h4 h5
    simp [extract_instance_id, h1, h2, h3, rawFallback, h4, h5]
  · intro kvs h1 h2 h3 h4
    simp only [extract_instance_id, h1, h2, h3, rawFallback]
    cases ht : jLookup kvs "raw_message" with
    | some t => simp [h4 t ht]
    | none => simp

/-- C3 witness: a nested `Trigger.Dimensions.InstanceId` wins over a
different well-formed identifier in the raw text. -/
theorem extract_priority_c3_witness :
    extract_instance_id (Json.obj
      [("Trigger", Json.obj [("Dimensions", Json.obj [("InstanceId", Json.str "i-0abc")])]),
       ("raw_message", Json.str "alarm on i-9def0 now")]) = Except.ok (some "i-0abc") := by
  exact extract_priority_c3.2.1 (Json.obj
    [("Trigger", Json.obj [("Dimensions", Json.obj [("InstanceId", Json.str "i-0abc")])]),
     ("raw_message", Json.str "alarm on i-9def0 now")]) "i-0abc" rfl

/-- C7: `parse_sns_message` never raises (its body's exceptions are all
caught and `{}` is returned), and whenever the extracted message payload
is a string that does not decode as JSON, the result is exactly
`{'raw_message': payload}`. -/
theorem parser_total_c7 :
    (∀ event : Json, ∃ m, parse_sns_message event = Except.ok m) ∧
    (∀ (event : Json) (s : String), messagePayload event = Except.ok (Json.str s) →
       jsonLoads s = none →
       parse_sns_message event = Except.ok (Json.obj [("raw_message", Json.str s)])) := by
  constructor
  · intro event
    unfold parse_sns_message
    cases h : parseCore event with
    | ok m => exact ⟨m, rfl⟩
    | error e => exact ⟨Json.obj [], rfl⟩
  · intro event s h1 h2
    simp [parse_sns_message, parseCore, h1, h2]

/-- C7 witness: a plain-text payload is wrapped as a raw message. -/
theorem parser_total_c7_witness :
    parse_sns_message (Json.obj [("Records", Json.arr
        [Json.obj [("Sns", Json.obj [("Message", Json.str "database down!")])]])]) =
      Except.ok (Json.obj [("raw_message", Json.str "database down!")]) := by
  exact parser_total_c7.2 (Json.obj [("Records", Json.arr
    [Json.obj [("Sns", Json.obj [("Message", Json.str "database down!")])]])])
    "database down!" rfl rfl

/-- C4: when the global auto-healing switch is disabled, both executor
entry points return a failure flag without touching any external
collaborator (the call trace is unchanged) and without raising; the
only produced effect is the log line whose text begins with the detail
"Auto-healing disabled" (the claim's "auto-healing disabled" up to
letter case, as the last conjuncts show). -/
theorem executor_disabled_c4 :
    ∀ (env : Env) (s : Effects) (iid action : String), env.autoHealingEnabled = false →
      execute_reboot_instance env s iid =
        (false, { s with logs := s.logs ++
          ["Auto-healing disabled, skipping reboot for " ++ iid] }) ∧
      execute_ssm_command env s iid action =
        (false, { s with logs := s.logs ++
          ["Auto-healing disabled, skipping SSM command for " ++ iid] }) ∧
      ("Auto-healing disabled, skipping reboot for " ++ iid =
        "Auto-healing disabled" ++ (", skipping reboot for " ++ iid)) ∧
      ("Auto-healing disabled, skipping SSM command for " ++ iid =
        "Auto-healing disabled" ++ (", skipping SSM command for " ++ iid)) ∧
      pyLower "Auto-healing disabled" = "auto-healing disabled" := by
  intro env s iid action h
  refine ⟨?_, ?_, ?_, ?_, rfl⟩
  · simp [execute_reboot_instance, h]
  · simp [execute_ssm_command, h]
  · rw [show ("Auto-healing disabled, skipping reboot for " : String) =
      "Auto-healing disabled" ++ ", skipping reboot for " from rfl, String.append_assoc]
  · rw [show ("Auto-healing disabled, skipping SSM command for " : String) =
      "Auto-healing disabled" ++ ", skipping SSM command for " from rfl, String.append_assoc]

/-- C4 witness: scenario E's disabled CleanupDisk run makes no
collaborator call and fails. -/
theorem executor_disabled_c4_witness :
    execute_ssm_command { envOK with autoHealingEnabled := false } initEffects
        "i-0abc123" "cleanup_disk" =
      (false, { initEffects with logs :=
        ["Auto-healing disabled, skipping SSM command for i-0abc123"] }) := by
  have h := executor_disabled_c4 { envOK with autoHealingEnabled := false } initEffects
    "i-0abc123" "cleanup_disk" rfl
  exact h.2.1

/-- C6 counterexample: with no notification destination configured, the
reporter produces zero audit-log entries, not exactly one — it never
calls `log_healing_action` at all. -/
theorem reporter_missing_arn_c6_counterexample :
    ¬ ((publish_healing_result { envOK with snsTopicArn := "" } initEffects
        "i-0abc123" "reboot" true (Json.str "desc")).audits.length = 1) := by
  decide

/-- C6 (amended): calling the reporter with no notification destination
configured does not raise and performs no publish — the entire effect is
one warning log line and, contrary to the claim, zero audit-log
entries (`publish_healing_result` never writes audit entries). -/
theorem reporter_missing_arn_c6 :
    ∀ (env : Env) (s : Effects) (iid action : String) (success : Bool) (details : Json),
      env.snsTopicArn = "" →
      publish_healing_result env s iid action success details =
        { s with logs := s.logs ++ ["SNS topic ARN not configured, skipping notification"] } := by
  intro env s iid action success details h
  simp [publish_healing_result, h]

/-- C6 witness: a concrete unconfigured-reporter run, with unchanged
call trace and audit log. -/
theorem reporter_missing_arn_c6_witness :
    publish_healing_result { envOK with snsTopicArn := "" } initEffects
        "i-0abc123" "reboot" true (Json.str "desc") =
      { initEffects with logs := ["SNS topic ARN not configured, skipping notification"] } := by
  exact reporter_missing_arn_c6 { envOK with snsTopicArn := "" } initEffects
    "i-0abc123" "reboot" true (Json.str "desc") rfl

theorem log_healing_action_slept (env : Env) (s : Effects) (a b c d : String) :
    ((log_healing_action env s a b c d).2).slept = s.slept := rfl

theorem log_healing_action_calls (env : Env) (s : Effects) (a b c d : String) :
    ((log_healing_action env s a b c d).2).calls = s.calls := rfl

theorem get_instance_details_slept (env : Env) (s : Effects) (iid : String) :
    ((get_instance_details env s iid).2).slept = s.slept := by
  unfold get_instance_details
  dsimp only
  split <;> rfl

theorem get_instance_details_calls (env : Env) (s : Effects) (iid : String) :
    ((get_instance_details env s iid).2).calls = s.calls ++ [ExtCall.describeInstances iid] := by
  unfold get_instance_details
  dsimp only
  split <;> rfl

theorem pollLoop_slept_le (env : Env) (iid action cmdId : String) :
    ∀ (n i : Nat) (s : Effects),
      ((pollLoop env iid action cmdId n i s).2).slept ≤ s.slept + 3 * n := by
  intro n
  induction n with
  | zero => intro i s; simp [pollLoop]
  | succ n ih =>
    intro i s
    cases hr : env.ssmStatusResp i with
    | error e => simp [pollLoop, hr] <;> omega
    | ok st =>
      by_cases h1 : st.status = "Success"
      · simp [pollLoop, hr, h1, log_healing_action, pollObserve] <;> omega
      · by_cases h2 : st.status = "Failed"
        · simp [pollLoop, hr, h1, h2, log_healing_action, pollObserve] <;> omega
        · have h := ih (i + 1) (pollObserve cmdId iid st s)
          have hobs : (pollObserve cmdId iid st s).slept = s.slept + 3 := rfl
          rw [hobs] at h
          simp only [pollLoop, hr, if_neg h1, if_neg h2]
          change (pollLoop env iid action cmdId n (i + 1)
            (pollObserve cmdId iid st s)).2.slept ≤ s.slept + 3 * (n + 1)
          omega

theorem pollLoop_calls (env : Env) (iid action cmdId : String) :
    ∀ (n i : Nat) (s : Effects),
      ∃ delta, ((pollLoop env iid action cmdId n i s).2).calls = s.calls ++ delta ∧
        delta.length ≤ n ∧ ∀ x ∈ delta, x = ExtCall.getCommandInvocation cmdId iid := by
  intro n
  induction n with
  | zero => intro i s; exact ⟨[], by simp [pollLoop], by simp, by simp⟩
  | succ n ih =>
    intro i s
    cases hr : env.ssmStatusResp i with
    | error e =>
      refine ⟨[ExtCall.getCommandInvocation cmdId iid], by simp [pollLoop, hr], by simp, ?_⟩
      intro x hx
      simpa using hx
    | ok st =>
      by_cases h1 : st.status = "Success"
      · refine ⟨[ExtCall.getCommandInvocation cmdId iid],
          by simp [pollLoop, hr, h1, log_healing_action, pollObserve], by simp, ?_⟩
        intro x hx
        simpa using hx
      · by_cases h2 : st.status = "Failed"
        · refine ⟨[ExtCall.getCommandInvocation cmdId iid],
            by simp [pollLoop, hr, h1, h2, log_healing_action, pollObserve], by simp, ?_⟩
          intro x hx
          simpa using hx
        · obtain ⟨delta, hcalls, hlen, hall⟩ := ih (i + 1) (pollObserve cmdId iid st s)
          refine ⟨ExtCall.getCommandInvocation cmdId iid :: delta, ?_, by simp [hlen], ?_⟩
          · simp only [pollLoop, hr, if_neg h1, if_neg h2]
            change (pollLoop env iid action cmdId n (i + 1)
              (pollObserve cmdId iid st s)).2.calls =
                s.calls ++ (ExtCall.getCommandInvocation cmdId iid :: delta)
            rw [hcalls]
            simp [pollObserve]
          · intro x hx
            rcases List.mem_cons.mp hx with h | h
            · exact h
            · exact hall x h

theorem pollLoop_pending (env : Env) (iid action cmdId : String) :
    ∀ (n i : Nat) (s : Effects),
      (∀ j, j < n → ∃ st, env.ssmStatusResp (i + j) = Except.ok st ∧
        st.status ≠ "Success" ∧ st.status ≠ "Failed") →
      (pollLoop env iid action cmdId n i s).1 = Except.ok false ∧
        ((pollLoop env iid action cmdId n i s).2).slept = s.slept + 3 * n := by
  intro n
  induction n with
  | zero => intro i s _; simp [pollLoop]
  | succ n ih =>
    intro i s h
    obtain ⟨st, hst, h1, h2⟩ := h 0 (by omega)
    rw [Nat.add_zero] at hst
    simp only [pollLoop, hst, if_neg h1, if_neg h2]
    have hrec := ih (i + 1) (pollObserve cmdId iid st s) ?_
    · refine ⟨hrec.1, ?_⟩
      rw [hrec.2]
      simp [pollObserve]
      omega
    · intro j hj
      have heq : i + 1 + j = i + (j + 1) := by omega
      rw [heq]
      exact h (j + 1) (by omega)

theorem pollTail_slept_le (env : Env) (iid action cmdId : String) (s4 : Effects) :
    ((match pollLoop env iid action cmdId 10 0 s4 with
      | (Except.ok b, s5) => (b, s5)
      | (Except.error e, s5) =>
        (false, (log_healing_action env { s5 with logs := s5.logs ++
          ["Error executing SSM command on " ++ iid ++ ": " ++ e] }
          iid ("ssm_" ++ action) "failed" e).2)).2).slept ≤ s4.slept + 30 := by
  have hb := pollLoop_slept_le env iid action cmdId 10 0 s4
  rcases hp : pollLoop env iid action cmdId 10 0 s4 with ⟨r, s5⟩
  rw [hp] at hb
  simp only [] at hb
  cases r with
  | ok b => simpa using hb
  | error e =>
    dsimp only [log_healing_action]
    simp at hb
    omega

theorem execute_ssm_slept_le (env : Env) (s : Effects) (iid action : String) :
    ((execute_ssm_command env s iid action).2).slept ≤ s.slept + 30 := by
  unfold execute_ssm_command
  split_ifs with h
  · simp
  · cases hgd : get_instance_details env s iid with
    | mk o s1 =>
      have hs1 : s1.slept = s.slept := by
        have h2 := get_instance_details_slept env s iid
        rw [hgd] at h2
        exact h2
      cases o with
      | none =>
        dsimp only
        omega
      | some inst =>
        dsimp only
        split_ifs with hrun
        · dsimp only
          omega
        · cases hsend : env.sendResp with
          | error e =>
            dsimp only [log_healing_action]
            omega
          | ok cmdId =>
            dsimp only
            refine le_trans (pollTail_slept_le env iid action cmdId _) ?_
            have hds : (ssmDispatchState env { s1 with
                logs := s1.logs ++
                  ["Executing SSM command: " ++ action ++ " on instance " ++ iid],
                calls := s1.calls ++
                  [ExtCall.sendCommand iid action env.healingActionTimeout] }
                iid action cmdId).slept = s1.slept := rfl
            rw [hds]
            omega

/-- C5: the completion-polling protocol — the loop entered by
`execute_ssm_command` with a budget of 10 makes at most 10 status calls
and sleeps at most 10 × 3 = 30 time units; a `Success` status (the
spec's Succeeded) terminates it with a success result and a `Failed`
status with a failure result; any other status polls again; if every
status in the 10-attempt budget is non-terminal, the loop returns an
unsuccessful timed-out result after exactly 30 time units; consequently
the whole executor never sleeps more than 30 time units. -/
theorem polling_bounded_c5 :
    (∀ (env : Env) (iid action cmdId : String) (i : Nat) (s : Effects),
       ((pollLoop env iid action cmdId 10 i s).2).slept ≤ s.slept + 30 ∧
       ∃ delta, ((pollLoop env iid action cmdId 10 i s).2).calls = s.calls ++ delta ∧
         delta.length ≤ 10 ∧ ∀ x ∈ delta, x = ExtCall.getCommandInvocation cmdId iid) ∧
    (∀ (env : Env) (iid action cmdId : String) (n i : Nat) (s : Effects) (st : InvStatus),
       env.ssmStatusResp i = Except.ok st → st.status = "Success" →
       (pollLoop env iid action cmdId (n + 1) i s).1 = Except.ok true) ∧
    (∀ (env : Env) (iid action cmdId : String) (n i : Nat) (s : Effects) (st : InvStatus),
       env.ssmStatusResp i = Except.ok st → st.status = "Failed" →
       (pollLoop env iid action cmdId (n + 1) i s).1 = Except.ok false) ∧
    (∀ (env : Env) (iid action cmdId : String) (n i : Nat) (s : Effects) (st : InvStatus),
       env.ssmStatusResp i = Except.ok st → st.status ≠ "Success" → st.status ≠ "Failed" →
       pollLoop env iid action cmdId (n + 1) i s =
         pollLoop env iid action cmdId n (i + 1) (pollObserve cmdId iid st s)) ∧
    (∀ (env : Env) (iid action cmdId : String) (i : Nat) (s : Effects),
       (∀ j, j < 10 → ∃ st, env.ssmStatusResp (i + j) = Except.ok st ∧
         st.status ≠ "Success" ∧ st.status ≠ "Failed") →
       (pollLoop env iid action cmdId 10 i s).1 = Except.ok false ∧
         ((pollLoop env iid action cmdId 10 i s).2).slept = s.slept + 30) ∧
    (∀ (env : Env) (s : Effects) (iid action : String),
       ((execute_ssm_command env s iid action).2).slept ≤ s.slept + 30) := by
  refine ⟨?_, ?_, ?_, ?_, ?_, execute_ssm_slept_le⟩
  · intro env iid action cmdId i s
    refine ⟨?_, pollLoop_calls env iid action cmdId 10 i s⟩
    have h := pollLoop_slept_le env iid action cmdId 10 i s
    omega
  · intro env iid action cmdId n i s st hr hst
    simp [pollLoop, hr, hst]
  · intro env iid action cmdId n i s st hr hst
    simp [pollLoop, hr, hst]
  · intro env iid action cmdId n i s st hr h1 h2
    simp only [pollLoop, hr, if_neg h1, if_neg h2]
  · intro env iid action cmdId i s h
    have hp := pollLoop_pending env iid action cmdId 10 i s h
    refine ⟨hp.1, ?_⟩
    rw [hp.2]

/-- C5 witness: scenario D — every poll answers `Pending`, so the loop
times out unsuccessfully after exactly 10 polls and 30 time units. -/
theorem polling_bounded_c5_witness :
    (pollLoop envPending "i-0abc123" "clear_cache" "cmd-1" 10 0 initEffects).1 =
        Except.ok false ∧
      ((pollLoop envPending "i-0abc123" "clear_cache" "cmd-1" 10 0 initEffects).2).slept =
        initEffects.slept + 30 := by
  exact polling_bounded_c5.2.2.2.2.1 envPending "i-0abc123" "clear_cache" "cmd-1" 0 initEffects
    (fun j _ => ⟨{ status := "Pending", standardErrorContent := none }, rfl,
      by decide, by decide⟩)

/-- C9: for a non-reboot action (the only ones routed to
`execute_ssm_command`), with auto-healing enabled the executor's first
collaborator call is always the `describe_instances` re-fetch of the
resource's state, and when that fetch reports the resource absent, or
present but with a run state other than `running`, it returns an
unsuccessful result whose trace contains no call beyond that fetch — in
particular no `send_command` dispatch. -/
theorem ssm_revalidate_c9 :
    ∀ (env : Env) (s : Effects) (iid action : String), env.autoHealingEnabled = true →
      (∃ rest, ((execute_ssm_command env s iid action).2).calls =
        s.calls ++ ExtCall.describeInstances iid :: rest) ∧
      (∀ s1, get_instance_details env s iid = (none, s1) →
        execute_ssm_command env s iid action =
          (false, { s1 with logs := s1.logs ++ ["Instance " ++ iid ++ " not found"] }) ∧
        ((execute_ssm_command env s iid action).2).calls =
          s.calls ++ [ExtCall.describeInstances iid]) ∧
      (∀ inst s1, get_instance_details env s iid = (some inst, s1) →
        inst.stateName ≠ "running" →
        execute_ssm_command env s iid action =
          (false, { s1 with logs := s1.logs ++
            ["Instance " ++ iid ++ " is not running, cannot execute SSM command"] }) ∧
        ((execute_ssm_command env s iid action).2).calls =
          s.calls ++ [ExtCall.describeInstances iid]) := by
  intro env s iid action h
  have hcalls := get_instance_details_calls env s iid
  refine ⟨?_, ?_, ?_⟩
  · unfold execute_ssm_command
    rw [if_neg (by simp [h])]
    cases hgd : get_instance_details env s iid with
    | mk o s1 =>
      have hc1 : s1.calls = s.calls ++ [ExtCall.describeInstances iid] := by
        rw [hgd] at hcalls
        exact hcalls
      cases o with
      | none =>
        exact ⟨[], by dsimp only; rw [hc1]⟩
      | some inst =>
        dsimp only
        split_ifs with hrun
        · exact ⟨[], by dsimp only; rw [hc1]⟩
        · cases hsend : env.sendResp with
          | error e =>
            refine ⟨[ExtCall.sendCommand iid action env.healingActionTimeout], ?_⟩
            dsimp only [log_healing_action]
            rw [hc1]
            simp
          | ok cmdId =>
            obtain ⟨delta, hpc, _, _⟩ := pollLoop_calls env iid action cmdId 10 0
              (ssmDispatchState env { s1 with
                logs := s1.logs ++
                  ["Executing SSM command: " ++ action ++ " on instance " ++ iid],
                calls := s1.calls ++
                  [ExtCall.sendCommand iid action env.healingActionTimeout] }
                iid action cmdId)
            have hds : (ssmDispatchState env { s1 with
                logs := s1.logs ++
                  ["Executing SSM command: " ++ action ++ " on instance " ++ iid],
                calls := s1.calls ++
                  [ExtCall.sendCommand iid action env.healingActionTimeout] }
                iid action cmdId).calls =
                s1.calls ++ [ExtCall.sendCommand iid action env.healingActionTimeout] := rfl
            rw [hds] at hpc
            dsimp only
            rcases hp : pollLoop env iid action cmdId 10 0
              (ssmDispatchState env { s1 with
                logs := s1.logs ++
                  ["Executing SSM command: " ++ action ++ " on instance " ++ iid],
                calls := s1.calls ++
                  [ExtCall.sendCommand iid action env.healingActionTimeout] }
                iid action cmdId) with ⟨r, s5⟩
            rw [hp] at hpc
            cases r with
            | ok b =>
              refine ⟨ExtCall.sendCommand iid action env.healingActionTimeout :: delta, ?_⟩
              dsimp only
              rw [hpc, hc1]
              simp
            | error e =>
              refine ⟨ExtCall.sendCommand iid action env.healingActionTimeout ::
                (delta ++ []), ?_⟩
              dsimp only [log_healing_action]
              rw [hpc, hc1]
              simp
  · intro s1 hgd
    have hc1 : s1.calls = s.calls ++ [ExtCall.describeInstances iid] := by
      rw [hgd] at hcalls
      exact hcalls
    constructor
    · unfold execute_ssm_command
      rw [if_neg (by simp [h]), hgd]
    · unfold execute_ssm_command
      rw [if_neg (by simp [h]), hgd]
      dsimp only
      exact hc1
  · intro inst s1 hgd hrun
    have hc1 : s1.calls = s.calls ++ [ExtCall.describeInstances iid] := by
      rw [hgd] at hcalls
      exact hcalls
    have hrun' : (inst.stateName != "running") = true := by
      simp [bne_iff_ne, hrun]
    constructor
    · unfold execute_ssm_command
      rw [if_neg (by simp [h]), hgd]
      dsimp only
      rw [if_pos hrun']
    · unfold execute_ssm_command
      rw [if_neg (by simp [h]), hgd]
      dsimp only
      rw [if_pos hrun']
      exact hc1

/-- C9 witness: with the lookup answering "no reservations", a
CleanupDisk run fails after only the describe call. -/
theorem ssm_revalidate_c9_witness :
    execute_ssm_command envNoRes initEffects "i-0abc123" "cleanup_disk" =
      (false,
       { (get_instance_details envNoRes initEffects "i-0abc123").2 with
           logs := ((get_instance_details envNoRes initEffects "i-0abc123").2).logs ++
             ["Instance i-0abc123 not found"] }) := by
  have h := (ssm_revalidate_c9 envNoRes initEffects "i-0abc123" "cleanup_disk" rfl).2.1
    ((get_instance_details envNoRes initEffects "i-0abc123").2) rfl
  exact h.1

/-- C1: `lambda_handler` is total (every raise inside the `try` is
caught; the result type is the envelope, never an exception) and its
status code is always one of 200/400/404/500, assigned exactly as the
claim states: 400 when extraction yields no identifier, 404 when the
instance lookup returns nothing, 200 when the executed action reports
success and 500 when it reports failure, and 500 with the fault's
message in the body (`handlerFail`) whenever a stage raises. -/
theorem handler_envelope_c1 :
    ∀ (env : Env) (event : Json),
      ((lambda_handler env event).1.statusCode = 200 ∨
       (lambda_handler env event).1.statusCode = 400 ∨
       (lambda_handler env event).1.statusCode = 404 ∨
       (lambda_handler env event).1.statusCode = 500) ∧
      ∀ m, parse_sns_message event = Except.ok m →
        (extract_instance_id m = Except.ok none →
           (lambda_handler env event).1 =
             { statusCode := 400,
               body := Json.obj
                 [("error", Json.str "Could not extract instance ID from alert")] }) ∧
        (∀ e, extract_instance_id m = Except.error e →
           (lambda_handler env event).1 = handlerFail e) ∧
        (∀ iid s, extract_instance_id m = Except.ok (some iid) →
           get_instance_details env initEffects iid = (none, s) →
           (lambda_handler env event).1 =
             { statusCode := 404,
               body := Json.obj
                 [("error", Json.str ("Instance " ++ iid ++ " not found"))] }) ∧
        (∀ iid inst s e, extract_instance_id m = Except.ok (some iid) →
           get_instance_details env initEffects iid = (some inst, s) →
           determine_healing_action m iid = Except.error e →
           (lambda_handler env event).1 = handlerFail e) ∧
        (∀ iid inst s action d, extract_instance_id m = Except.ok (some iid) →
           get_instance_details env initEffects iid = (some inst, s) →
           determine_healing_action m iid = Except.ok action →
           jGetD m "AlarmDescription" (Json.str "") = Except.ok d →
           (lambda_handler env event).1.statusCode =
             if (if action = "reboot" then execute_reboot_instance env s iid
                 else execute_ssm_command env s iid action).1
             then 200 else 500) := by
  intro env event
  constructor
  · unfold lambda_handler
    repeat' split
    all_goals simp [handlerFail]
  · intro m hp
    refine ⟨?_, ?_, ?_, ?_, ?_⟩
    · intro he
      simp [lambda_handler, hp, he]
    · intro e he
      simp [lambda_handler, hp, he]
    · intro iid s he hg
      simp [lambda_handler, hp, he, hg]
    · intro iid inst s e he hg hd
      simp [lambda_handler, hp, he, hg, hd]
    · intro iid inst s action d he hg hd hdesc
      simp only [lambda_handler, hp, he, hg, hd, hdesc]

/-- C1 witness: scenario B — a plain-text alert with no identifier
yields the 400 envelope. -/
theorem handler_envelope_c1_witness :
    (lambda_handler envOK (Json.obj [("Records", Json.arr
        [Json.obj [("Sns", Json.obj [("Message", Json.str "database down!")])]])])).1 =
      { statusCode := 400,
        body := Json.obj [("error", Json.str "Could not extract instance ID from alert")] } := by
  exact ((handler_envelope_c1 envOK (Json.obj [("Records", Json.arr
    [Json.obj [("Sns", Json.obj [("Message", Json.str "database down!")])]])])).2
    (Json.obj [("raw_message", Json.str "database down!")]) rfl).1 rfl
